import Mathlib

/-!
A verification development for the LeapC connection wrapper
(Source/UltraleapTrackingCore/Private/LeapWrapper.cpp).

The C++ code is shallowly embedded: each member function becomes a pure Lean
function over an explicit state, and every externally observable effect
(allocation, free, opening or closing a device handle, scheduling a deferred
task, invoking a callback, starting the pump thread, joining it) is recorded
in an action trace so that resource-accounting properties can be stated.
Results of the external LeapC service calls (LeapOpenDevice,
LeapGetDeviceInfo, LeapPollConnection, ...) are inputs to the embedded
functions, since the service is an external collaborator.
-/

/-- The LeapC result-code space, exactly the constructors enumerated by
FLeapWrapper::ResultString in the source. -/
inductive ELeapRS
  | success
  | unknownError
  | invalidArgument
  | insufficientResources
  | insufficientBuffer
  | timeout
  | notConnected
  | handshakeIncomplete
  | bufferSizeOverflow
  | protocolError
  | invalidClientID
  | unexpectedClosed
  | unknownImageFrameRequest
  | unknownTrackingFrameID
  | routineIsNotSeer
  | timestampTooEarly
  | concurrentPoll
  | notAvailable
  | notStreaming
  | cannotOpenDevice
deriving DecidableEq, Repr

/-- Observable actions of FLeapWrapper::HandleDeviceEvent.  Serial-buffer
allocations carry an identifier (0 for the initial 64-byte guess buffer, 1
for the retry buffer) and the allocated length, so that leak/double-free
accounting can distinguish the two allocations made on the retry path. -/
inductive DevAct
  | openDevice
  | mallocSerial (id : Nat) (len : Nat)
  | freeSerial (id : Nat)
  | queryDeviceInfo
  | setDevice
  | scheduleTask
  | deliverDeviceFound
  | closeDevice
deriving DecidableEq, Repr

/-- Inputs (external-call outcomes) that determine one execution of
FLeapWrapper::HandleDeviceEvent: the result of LeapOpenDevice, the result of
the first LeapGetDeviceInfo call, the corrected serial length the service
writes back into DeviceProperties.serial_length on an insufficient-buffer
failure, the result of the retried LeapGetDeviceInfo call, whether
CallbackDelegate is non-null, and whether the leap context is still valid at
the time the deferred game-thread task runs. -/
structure DevInputs where
  openResult : ELeapRS
  firstResult : ELeapRS
  requiredLength : Nat
  secondResult : ELeapRS
  callbackSet : Bool
  contextValidAtTask : Bool
deriving DecidableEq, Repr

/-- Embedding of FLeapWrapper::HandleDeviceEvent (LeapWrapper.cpp lines
372-425) as the trace of observable actions of one execution.  The effects of
the deferred game-thread task (the guarded OnDeviceFound delivery and the
free of the captured serial buffer) are inlined at the point the task is
scheduled; the free inside the lambda runs whether or not the context-valid
guard passes, exactly as in the source. -/
def HandleDeviceEvent (inp : DevInputs) : List DevAct :=
  if inp.openResult ≠ ELeapRS.success then
    []
  else
    DevAct.openDevice ::
    DevAct.mallocSerial 0 64 ::
    DevAct.queryDeviceInfo ::
    (if inp.firstResult = ELeapRS.insufficientBuffer then
      DevAct.freeSerial 0 ::
      DevAct.mallocSerial 1 inp.requiredLength ::
      DevAct.queryDeviceInfo ::
      (if inp.secondResult ≠ ELeapRS.success then
        [DevAct.freeSerial 1]
      else
        DevAct.setDevice ::
        ((if inp.callbackSet then
            DevAct.scheduleTask ::
            (if inp.contextValidAtTask then
              [DevAct.deliverDeviceFound, DevAct.freeSerial 1]
            else
              [DevAct.freeSerial 1])
          else
            [DevAct.freeSerial 1]) ++ [DevAct.closeDevice]))
    else
      DevAct.setDevice ::
      ((if inp.callbackSet then
          DevAct.scheduleTask ::
          (if inp.contextValidAtTask then
            [DevAct.deliverDeviceFound, DevAct.freeSerial 0]
          else
            [DevAct.freeSerial 0])
        else
          [DevAct.freeSerial 0]) ++ [DevAct.closeDevice]))

/-- Number of serial-buffer allocations with a given identifier in a trace. -/
def serialMallocCount (tr : List DevAct) (id : Nat) : Nat :=
  (tr.filter fun a =>
    match a with
    | DevAct.mallocSerial i _ => i = id
    | _ => false).length

/-- Number of frees of the serial buffer with a given identifier in a trace. -/
def serialFreeCount (tr : List DevAct) (id : Nat) : Nat :=
  (tr.filter fun a =>
    match a with
    | DevAct.freeSerial i => i = id
    | _ => false).length

/-- Every serial buffer ever allocated in the trace is freed exactly as many
times as it was allocated (at most two serial allocations exist: id 0 and 1). -/
def serialBalanced (tr : List DevAct) : Prop :=
  serialFreeCount tr 0 = serialMallocCount tr 0 ∧
  serialFreeCount tr 1 = serialMallocCount tr 1

instance (tr : List DevAct) : Decidable (serialBalanced tr) := by
  unfold serialBalanced
  infer_instance

/-- Claim C1: regardless of the outcomes of the device-open and device-info
queries, the opened device handle is closed exactly once.  This FAILS on the
code: when the first device-info query reports an insufficient buffer and the
retry then fails, HandleDeviceEvent returns early without LeapCloseDevice,
leaking the opened handle — while the temporary serial buffers are still freed
exactly once on that same path. -/
theorem HandleDeviceEvent_retry_failure_leaks_handle :
    (HandleDeviceEvent
        ⟨ELeapRS.success, ELeapRS.insufficientBuffer, 128, ELeapRS.timeout,
          true, true⟩).count DevAct.openDevice = 1 ∧
    (HandleDeviceEvent
        ⟨ELeapRS.success, ELeapRS.insufficientBuffer, 128, ELeapRS.timeout,
          true, true⟩).count DevAct.closeDevice = 0 ∧
    serialBalanced
      (HandleDeviceEvent
        ⟨ELeapRS.success, ELeapRS.insufficientBuffer, 128, ELeapRS.timeout,
          true, true⟩) := by
  decide

/-- Claim C2, counterexample: when the first device-info query fails with a
status other than InsufficientBuffer (here Timeout), the event is NOT dropped:
the result of the failed check is never tested, so the cached device info is
still updated (SetDevice) and an OnDeviceFound delivery is still scheduled. -/
theorem HandleDeviceEvent_other_failure_not_dropped :
    (HandleDeviceEvent
        ⟨ELeapRS.success, ELeapRS.timeout, 128, ELeapRS.success,
          true, true⟩).count DevAct.setDevice = 1 ∧
    (HandleDeviceEvent
        ⟨ELeapRS.success, ELeapRS.timeout, 128, ELeapRS.success,
          true, true⟩).count DevAct.scheduleTask = 1 := by
  decide

/-- Claim C2, amended: an InsufficientBuffer result from the first device-info
query triggers exactly one retry, with a buffer of the corrected length the
service reported; only a failure of that retry drops the event (no cached-info
update, no scheduled delivery), while a successful retry caches the device
info and schedules delivery just as an immediately successful query does.  A
first-query failure other than InsufficientBuffer is not checked and does not
drop the event: the device info is cached and delivery is scheduled exactly
as on success. -/
theorem HandleDeviceEvent_retry_semantics (inp : DevInputs)
    (h : inp.openResult = ELeapRS.success) :
    (serialMallocCount (HandleDeviceEvent inp) 1 =
      if inp.firstResult = ELeapRS.insufficientBuffer then 1 else 0) ∧
    ((HandleDeviceEvent inp).count DevAct.queryDeviceInfo =
      if inp.firstResult = ELeapRS.insufficientBuffer then 2 else 1) ∧
    (inp.firstResult = ELeapRS.insufficientBuffer →
      DevAct.mallocSerial 1 inp.requiredLength ∈ HandleDeviceEvent inp) ∧
    (inp.firstResult = ELeapRS.insufficientBuffer →
      inp.secondResult ≠ ELeapRS.success →
        (HandleDeviceEvent inp).count DevAct.setDevice = 0 ∧
        (HandleDeviceEvent inp).count DevAct.scheduleTask = 0) ∧
    (inp.firstResult = ELeapRS.insufficientBuffer →
      inp.secondResult = ELeapRS.success →
        (HandleDeviceEvent inp).count DevAct.setDevice = 1 ∧
        (HandleDeviceEvent inp).count DevAct.scheduleTask =
          if inp.callbackSet then 1 else 0) ∧
    (inp.firstResult ≠ ELeapRS.insufficientBuffer →
        (HandleDeviceEvent inp).count DevAct.setDevice = 1 ∧
        (HandleDeviceEvent inp).count DevAct.scheduleTask =
          if inp.callbackSet then 1 else 0) := by
  obtain ⟨o, f, n, s, cb, cv⟩ := inp
  subst h
  by_cases hf : f = ELeapRS.insufficientBuffer <;>
    by_cases hs : s = ELeapRS.success <;>
      cases cb <;> cases cv <;>
        simp_all [HandleDeviceEvent, serialMallocCount, List.count, List.filter]

/-- Claim C2, witness: the amended theorem applied at two concrete inputs
with a successful device open — a timed-out first query (cached and not
dropped), and an insufficient-buffer first query whose retry succeeds
(cached, delivery scheduled). -/
theorem HandleDeviceEvent_retry_semantics_witness :
    ((HandleDeviceEvent
        ⟨ELeapRS.success, ELeapRS.timeout, 32, ELeapRS.success, false,
          false⟩).count DevAct.setDevice = 1 ∧
      (HandleDeviceEvent
        ⟨ELeapRS.success, ELeapRS.timeout, 32, ELeapRS.success, false,
          false⟩).count DevAct.scheduleTask = 0) ∧
    ((HandleDeviceEvent
        ⟨ELeapRS.success, ELeapRS.insufficientBuffer, 32, ELeapRS.success,
          true, true⟩).count DevAct.setDevice = 1 ∧
      (HandleDeviceEvent
        ⟨ELeapRS.success, ELeapRS.insufficientBuffer, 32, ELeapRS.success,
          true, true⟩).count DevAct.scheduleTask = 1) :=
  ⟨(HandleDeviceEvent_retry_semantics
      ⟨ELeapRS.success, ELeapRS.timeout, 32, ELeapRS.success, false, false⟩
      rfl).2.2.2.2.2 (by decide),
    by
      have h := (HandleDeviceEvent_retry_semantics
        ⟨ELeapRS.success, ELeapRS.insufficientBuffer, 32, ELeapRS.success,
          true, true⟩ rfl).2.2.2.2.1 rfl rfl
      simpa using h⟩

/-- Session state of an FLeapWrapper instance, restricted to what the
lifecycle members read and write.  Pointer-valued fields are split into a
"Ptr" flag (the member pointer is non-null) and a "Live" flag (the allocation
it last pointed to has not been freed), so that nulling a pointer without
freeing (as the destructor does to LatestFrame) is distinguishable from
freeing.  contextRegistered models the process-wide LeapContextAtomic slot
holding this instance. -/
structure WrapperState where
  bIsRunning : Bool
  bIsConnected : Bool
  callbackSet : Bool
  contextRegistered : Bool
  dataLockLive : Bool
  latestFramePtr : Bool
  latestFrameLive : Bool
  interpFramePtr : Bool
  interpFrameLive : Bool
  deviceInfoPtr : Bool
  deviceInfoLive : Bool
  deviceSerialLive : Bool
  connectionHandleSet : Bool
  imageDescPtr : Bool
  imageDescLive : Bool
  imagePBufferPtr : Bool
  imagePBufferLive : Bool
  pumpStarted : Bool
deriving DecidableEq, Repr

/-- Observable actions of the lifecycle members (constructor aside):
frees/deletes of owned memory, clearing of the process-wide context token and
of the callback reference, the device cleanup, the bounded thread join (with
its timeout in seconds), the future reset, callback installation, context
registration, and the pump-thread start. -/
inductive LifeAct
  | freeDataLock
  | freeLatestFrame
  | freeInterpFrame
  | freeDeviceSerial
  | freeDeviceInfoStruct
  | freeImagePBuffer
  | freeImageDesc
  | clearContextToken
  | clearCallback
  | waitForThread (seconds : Nat)
  | resetFuture
  | setCallback
  | registerContext
  | startPumpThread
deriving DecidableEq, Repr

/-- Embedding of FLeapWrapper::CleanupLastDevice (lines 324-331): if the
CurrentDeviceInfo pointer is set, free its serial buffer; then null the
pointer.  The device-info struct itself is never freed here. -/
def CleanupLastDevice (s : WrapperState) : WrapperState × List LifeAct :=
  if s.deviceInfoPtr then
    ({ s with deviceSerialLive := false, deviceInfoPtr := false },
      [LifeAct.freeDeviceSerial])
  else
    ({ s with deviceInfoPtr := false }, [])

/-- Embedding of FLeapWrapper::CloseConnection (lines 122-147): an early
return when not connected (state untouched, only a log); otherwise clear the
connected and running flags, clean up the last device, wait up to 3 seconds
for the pump thread, reset the future, and null the callback reference. -/
def CloseConnection (s : WrapperState) : WrapperState × List LifeAct :=
  if ¬ s.bIsConnected then
    (s, [])
  else
    let s1 := { s with bIsConnected := false, bIsRunning := false }
    let r2 := CleanupLastDevice s1
    ({ r2.1 with callbackSet := false },
      r2.2 ++ [LifeAct.waitForThread 3, LifeAct.resetFuture,
        LifeAct.clearCallback])

/-- Embedding of the destructor FLeapWrapper::~FLeapWrapper (lines 55-82), in
source order: delete DataLock; clear bIsRunning; null the process-wide
context token; null CallbackDelegate; null the LatestFrame and
ConnectionHandle pointers (without freeing); call CloseConnection if still
connected; finally free ImageDescription's pixel buffer (if any) and the
ImageDescription struct. -/
def Destructor (s : WrapperState) : WrapperState × List LifeAct :=
  let s1 := { s with dataLockLive := false }
  let s2 := { s1 with bIsRunning := false, contextRegistered := false,
                      callbackSet := false, latestFramePtr := false,
                      connectionHandleSet := false }
  let t2 := [LifeAct.freeDataLock, LifeAct.clearContextToken,
    LifeAct.clearCallback]
  let r3 := if s2.bIsConnected then CloseConnection s2 else (s2, [])
  let r4 :=
    if r3.1.imageDescPtr then
      let ra :=
        if r3.1.imagePBufferPtr then
          ({ r3.1 with imagePBufferLive := false, imagePBufferPtr := false },
            [LifeAct.freeImagePBuffer])
        else
          (r3.1, [])
      ({ ra.1 with imageDescLive := false, imageDescPtr := false },
        ra.2 ++ [LifeAct.freeImageDesc])
    else
      (r3.1, [])
  (r4.1, t2 ++ r3.2 ++ r4.2)

/-- Embedding of FLeapWrapper::SetCallbackDelegate (lines 84-89): store the
callback and publish this instance into the process-wide context slot. -/
def SetCallbackDelegate (s : WrapperState) : WrapperState × List LifeAct :=
  ({ s with callbackSet := true, contextRegistered := true },
    [LifeAct.setCallback, LifeAct.registerContext])

/-- Embedding of FLeapWrapper::OpenConnection (lines 91-120), parameterised
by the results of LeapCreateConnection and LeapOpenConnection: it first calls
SetCallbackDelegate unconditionally; only when both service calls succeed
does it set bIsRunning and start the message pump on a background thread.
The function always returns the address of the ConnectionHandle member, so
the returned handle itself carries no success information. -/
def OpenConnection (s : WrapperState)
    (createResult openResult : ELeapRS) : WrapperState × List LifeAct :=
  let r1 := SetCallbackDelegate s
  if createResult = ELeapRS.success then
    let s2 := { r1.1 with connectionHandleSet := true }
    if openResult = ELeapRS.success then
      ({ s2 with bIsRunning := true, pumpStarted := true },
        r1.2 ++ [LifeAct.startPumpThread])
    else
      (s2, r1.2)
  else
    (r1.1, r1.2)

/-- A fully populated session state: connected, running, callback installed,
context registered, and every owned buffer allocated with its pointer set. -/
def fullState : WrapperState :=
  ⟨true, true, true, true, true, true, true, true, true, true, true, true,
    true, true, true, true, true, true⟩

/-- Claim C3, counterexample: running the destructor on a fully populated
session frees neither the cached tracking frame (its pointer is merely
nulled), nor the interpolated frame, nor the device-info struct — so the
destructor does not free every session-owned buffer — and the data lock,
which is session-owned memory, is deleted before the context token is
invalidated. -/
theorem Destructor_leaks_buffers :
    (Destructor fullState).1.latestFrameLive = true ∧
    (Destructor fullState).1.latestFramePtr = false ∧
    (Destructor fullState).1.interpFrameLive = true ∧
    (Destructor fullState).1.deviceInfoLive = true ∧
    (Destructor fullState).2.take 2 =
      [LifeAct.freeDataLock, LifeAct.clearContextToken] := by
  decide

/-- Claim C3, amended: the destructor deletes the data lock, then invalidates
the context token and clears the callback, nulls the tracking-frame and
connection-handle pointers without freeing them, closes the connection if
still connected (which frees the cached device serial), and frees the image
description and its pixel buffer; the interpolated frame, the tracking-frame
buffer and the device-info struct are never freed, and the data lock is
deleted before the token is invalidated. -/
theorem Destructor_effects (s : WrapperState) :
    (Destructor s).1.contextRegistered = false ∧
    (Destructor s).1.callbackSet = false ∧
    (Destructor s).1.bIsRunning = false ∧
    (Destructor s).1.bIsConnected = false ∧
    (Destructor s).1.dataLockLive = false ∧
    (Destructor s).1.latestFramePtr = false ∧
    (Destructor s).1.latestFrameLive = s.latestFrameLive ∧
    (Destructor s).1.interpFrameLive = s.interpFrameLive ∧
    (Destructor s).1.deviceInfoLive = s.deviceInfoLive ∧
    (s.bIsConnected = true → s.deviceInfoPtr = true →
      (Destructor s).1.deviceSerialLive = false) ∧
    (s.bIsConnected = false →
      (Destructor s).1.deviceSerialLive = s.deviceSerialLive) ∧
    (s.imageDescPtr = true → (Destructor s).1.imageDescLive = false) ∧
    (s.bIsConnected = true →
      (Destructor s).2.count (LifeAct.waitForThread 3) = 1) ∧
    (Destructor s).2.count LifeAct.freeLatestFrame = 0 ∧
    (Destructor s).2.count LifeAct.freeInterpFrame = 0 ∧
    (Destructor s).2.count LifeAct.freeDeviceInfoStruct = 0 ∧
    (Destructor s).2.take 2 =
      [LifeAct.freeDataLock, LifeAct.clearContextToken] := by
  obtain ⟨r, c, cb, ct, dl, lfp, lfl, ifp, ifl, dip, dil, dsl, ch, idp, idl,
    ipp, ipl, ps⟩ := s
  cases c <;> cases dip <;> cases idp <;> cases ipp <;>
    simp [Destructor, CloseConnection, CleanupLastDevice, List.count_cons]

/-- Claim C3, witness: the amended destructor theorem applied to the fully
populated session state, with every hypothesis discharged concretely. -/
theorem Destructor_effects_witness :
    (Destructor fullState).1.contextRegistered = false ∧
    (Destructor fullState).1.deviceSerialLive = false ∧
    (Destructor fullState).1.imageDescLive = false ∧
    (Destructor fullState).2.count (LifeAct.waitForThread 3) = 1 :=
  ⟨(Destructor_effects fullState).1,
    (Destructor_effects fullState).2.2.2.2.2.2.2.2.2.1 rfl rfl,
    (Destructor_effects fullState).2.2.2.2.2.2.2.2.2.2.2.1 rfl,
    (Destructor_effects fullState).2.2.2.2.2.2.2.2.2.2.2.2.1 rfl⟩

/-- A fresh, never-opened session state: nothing allocated besides what the
constructor sets up (the data lock), no flags set. -/
def freshState : WrapperState :=
  ⟨false, false, false, false, true, false, false, false, false, false,
    false, false, false, false, false, false, false, false⟩

/-- Claim C5, counterexample: OpenConnection on a fresh session whose create
call fails still registers the session as the current valid context (and
installs the callback), because SetCallbackDelegate runs unconditionally
before LeapCreateConnection — so registration is not gated on success of the
create/open calls, it only gates running and the pump start. -/
theorem OpenConnection_registers_context_despite_failure :
    (OpenConnection freshState ELeapRS.unknownError
        ELeapRS.unknownError).1.contextRegistered = true ∧
    (OpenConnection freshState ELeapRS.unknownError
        ELeapRS.unknownError).1.callbackSet = true ∧
    (OpenConnection freshState ELeapRS.unknownError
        ELeapRS.unknownError).1.bIsRunning = false ∧
    (OpenConnection freshState ELeapRS.unknownError
        ELeapRS.unknownError).2.count LifeAct.startPumpThread = 0 := by
  decide

/-- Claim C5, amended: OpenConnection installs the callback and registers the
session as the current valid context unconditionally at entry (via
SetCallbackDelegate), before the create call; it always returns the address
of the connection-handle member, which the caller must check; only when both
the create and the open call report success does it set the running flag and
start the message pump on a new background thread. -/
theorem OpenConnection_success_gating (s : WrapperState)
    (cr opr : ELeapRS) (h : s.bIsRunning = false) :
    (OpenConnection s cr opr).1.contextRegistered = true ∧
    (OpenConnection s cr opr).1.callbackSet = true ∧
    ((OpenConnection s cr opr).2.count LifeAct.startPumpThread =
      if cr = ELeapRS.success ∧ opr = ELeapRS.success then 1 else 0) ∧
    ((OpenConnection s cr opr).1.bIsRunning = true ↔
      cr = ELeapRS.success ∧ opr = ELeapRS.success) ∧
    ((OpenConnection s cr opr).1.pumpStarted = true ↔
      (s.pumpStarted = true ∨
        (cr = ELeapRS.success ∧ opr = ELeapRS.success))) := by
  by_cases hc : cr = ELeapRS.success <;>
    by_cases ho : opr = ELeapRS.success <;>
      simp_all [OpenConnection, SetCallbackDelegate, List.count_cons]

/-- Claim C5, witness: the amended OpenConnection theorem applied to the
fresh state with both service calls succeeding. -/
theorem OpenConnection_success_gating_witness :
    (OpenConnection freshState ELeapRS.success
        ELeapRS.success).1.contextRegistered = true ∧
    (OpenConnection freshState ELeapRS.success
        ELeapRS.success).2.count LifeAct.startPumpThread = 1 :=
  ⟨(OpenConnection_success_gating freshState ELeapRS.success ELeapRS.success
      rfl).1,
    by
      have h := (OpenConnection_success_gating freshState ELeapRS.success
        ELeapRS.success rfl).2.2.1
      simpa using h⟩

/-- Claim C7: CloseConnection is idempotent-guarded.  When the session is not
connected it returns immediately with the state unchanged and no actions;
otherwise it clears the connected and running flags, releases the last known
device (freeing the cached serial when a device was cached), performs exactly
one bounded thread join with a 3-second timeout, and then clears the callback
reference — and because the first call clears the connected flag, a second
consecutive call is a no-op with no second join attempt. -/
theorem CloseConnection_idempotent (s : WrapperState) :
    (s.bIsConnected = false → CloseConnection s = (s, [])) ∧
    (s.bIsConnected = true →
      (CloseConnection s).1.bIsConnected = false ∧
      (CloseConnection s).1.bIsRunning = false ∧
      (CloseConnection s).1.callbackSet = false ∧
      (CloseConnection s).1.deviceInfoPtr = false ∧
      (s.deviceInfoPtr = true →
        (CloseConnection s).2.count LifeAct.freeDeviceSerial = 1) ∧
      (CloseConnection s).2.count (LifeAct.waitForThread 3) = 1 ∧
      ((CloseConnection s).2.getLast? = some LifeAct.clearCallback) ∧
      CloseConnection (CloseConnection s).1 = ((CloseConnection s).1, [])) := by
  obtain ⟨r, c, cb, ct, dl, lfp, lfl, ifp, ifl, dip, dil, dsl, ch, idp, idl,
    ipp, ipl, ps⟩ := s
  cases c <;> cases dip <;>
    simp [CloseConnection, CleanupLastDevice, List.count_cons]

/-- Claim C7, witness: the idempotence theorem applied to the fully populated
connected state, with the hypotheses discharged concretely. -/
theorem CloseConnection_idempotent_witness :
    (CloseConnection fullState).1.bIsConnected = false ∧
    (CloseConnection fullState).2.count (LifeAct.waitForThread 3) = 1 ∧
    CloseConnection (CloseConnection fullState).1 =
      ((CloseConnection fullState).1, []) :=
  ⟨((CloseConnection_idempotent fullState).2 rfl).1,
    ((CloseConnection_idempotent fullState).2 rfl).2.2.2.2.2.1,
    ((CloseConnection_idempotent fullState).2 rfl).2.2.2.2.2.2.2⟩

/-- A tracking event as delivered by the service.  reportedSize models the
size of the full variable-length frame data the service reports for the
event; the C struct handled by SetFrame is the fixed-size header, and the
code reads no size field at all when caching it. -/
structure TrackingEventModel where
  reportedSize : Nat
deriving DecidableEq, Repr

/-- Observable actions of the tracking-frame path. -/
inductive FrameAct
  | mallocFrame (len : Nat)
  | copyFrame
  | onFrameDirect
  | scheduleOnMain
deriving DecidableEq, Repr

/-- Embedding of FLeapWrapper::SetFrame (lines 333-345): under the data lock,
allocate the LatestFrame buffer at the fixed struct size sizeof(*Frame) if
the pointer is still null, then shallow-copy the event struct into it.
The buffer is represented by its capacity (none while unallocated); the
event's reportedSize is never consulted. -/
def SetFrame (latest : Option Nat) (structSize : Nat)
    (ev : TrackingEventModel) : Option Nat × List FrameAct :=
  match latest with
  | none =>
    (some structSize, [FrameAct.mallocFrame structSize, FrameAct.copyFrame])
  | some cap => (some cap, [FrameAct.copyFrame])

/-- Number of frame-buffer allocations in a trace. -/
def frameMallocCount (tr : List FrameAct) : Nat :=
  (tr.filter fun a =>
    match a with
    | FrameAct.mallocFrame _ => true
    | _ => false).length

/-- Embedding of FLeapWrapper::HandleTrackingEvent (lines 461-478): cache the
frame via SetFrame, then, if the callback delegate is set, invoke OnFrame
directly on the pump thread (no game-thread deferral on this path). -/
def HandleTrackingEvent (latest : Option Nat) (structSize : Nat)
    (ev : TrackingEventModel) (callbackSet : Bool) :
    Option Nat × List FrameAct :=
  let r := SetFrame latest structSize ev
  if callbackSet then (r.1, r.2 ++ [FrameAct.onFrameDirect]) else r

/-- Claim C4, counterexample: with the cached-frame buffer already allocated
at capacity 16, handling a tracking event whose service-reported frame size
is 1000 performs no reallocation and leaves the capacity at 16 — the buffer
is never grown when the service reports a larger frame size, because
SetFrame allocates sizeof(*Frame) once and never reads any size. -/
theorem HandleTrackingEvent_no_growth :
    (HandleTrackingEvent (some 16) 16 ⟨1000⟩ true).1 = some 16 ∧
    frameMallocCount (HandleTrackingEvent (some 16) 16 ⟨1000⟩ true).2 = 0 ∧
    FrameAct.onFrameDirect ∈ (HandleTrackingEvent (some 16) 16 ⟨1000⟩ true).2 := by
  decide

/-- Claim C4, amended: for every tracking event handled, the cached frame is
updated by shallow-copying the event struct into a session-owned buffer that
is allocated exactly once, at the fixed struct size, on first use, and never
reallocated afterwards regardless of the frame size the service reports; the
OnFrame callback is then invoked directly on the pump thread (no deferral to
the main context) exactly when the callback delegate is set. -/
theorem HandleTrackingEvent_copy_and_direct_callback (latest : Option Nat)
    (structSize : Nat) (ev : TrackingEventModel) (cb : Bool) :
    (latest = none →
      (HandleTrackingEvent latest structSize ev cb).1 = some structSize ∧
      frameMallocCount (HandleTrackingEvent latest structSize ev cb).2 = 1) ∧
    (∀ c, latest = some c →
      (HandleTrackingEvent latest structSize ev cb).1 = some c ∧
      frameMallocCount (HandleTrackingEvent latest structSize ev cb).2 = 0) ∧
    (HandleTrackingEvent latest structSize ev cb).2.count FrameAct.copyFrame
      = 1 ∧
    ((HandleTrackingEvent latest structSize ev cb).2.count
        FrameAct.onFrameDirect = if cb then 1 else 0) ∧
    (HandleTrackingEvent latest structSize ev cb).2.count
      FrameAct.scheduleOnMain = 0 := by
  cases latest <;> cases cb <;>
    simp [HandleTrackingEvent, SetFrame, frameMallocCount, List.count_cons]

/-- Claim C4, witness: the amended theorem applied to a first tracking event
on a session with no cached frame yet and the callback installed. -/
theorem HandleTrackingEvent_copy_and_direct_callback_witness :
    (HandleTrackingEvent none 16 ⟨1000⟩ true).1 = some 16 ∧
    frameMallocCount (HandleTrackingEvent none 16 ⟨1000⟩ true).2 = 1 :=
  (HandleTrackingEvent_copy_and_direct_callback none 16 ⟨1000⟩ true).1 rfl

/-- State of the interpolation buffer: the capacity of the allocated buffer
(none while InterpolatedFrame is null) and the recorded
InterpolatedFrameSize member. -/
structure InterpState where
  cap : Option Nat
  recorded : Nat
deriving DecidableEq, Repr

/-- Observable actions of GetInterpolatedFrameAtTime. -/
inductive InterpAct
  | freeInterp
  | mallocInterp (len : Nat)
  | interpolate
deriving DecidableEq, Repr

/-- Embedding of FLeapWrapper::GetInterpolatedFrameAtTime (lines 194-219),
parameterised by the frame size the LeapGetFrameSize query reports (0 when
the query fails or reports an empty frame): when the reported size is
positive and differs from the recorded size, free any existing buffer and
allocate one of exactly the reported size; record the reported size; then
request the interpolated data.  When the reported size is 0, nothing
happens and the old buffer is returned. -/
def GetInterpolatedFrameAtTime (st : InterpState) (reported : Nat) :
    InterpState × List InterpAct :=
  if 0 < reported then
    if reported ≠ st.recorded then
      (⟨some reported, reported⟩,
        (if st.cap.isSome then [InterpAct.freeInterp] else []) ++
          [InterpAct.mallocInterp reported, InterpAct.interpolate])
    else
      (⟨st.cap, reported⟩, [InterpAct.interpolate])
  else
    (st, [])

/-- Number of interpolation-buffer allocations in a trace. -/
def interpMallocCount (tr : List InterpAct) : Nat :=
  (tr.filter fun a =>
    match a with
    | InterpAct.mallocInterp _ => true
    | _ => false).length

/-- The invariant relating the interpolation buffer to the recorded size:
either no buffer is allocated and the recorded size is 0 (the constructor
state), or the buffer capacity equals the recorded size. -/
def interpInv (st : InterpState) : Prop :=
  (st.cap = none ∧ st.recorded = 0) ∨ st.cap = some st.recorded

/-- Claim C6: GetInterpolatedFrameAtTime reallocates the interpolation buffer
only when the size reported by the size query differs from the recorded
buffer size (exactly one allocation then, none otherwise); after a call with
a positive reported size the buffer capacity equals that reported size (so
the returned buffer is never smaller than the size last reported); the
invariant is preserved; and an immediately repeated call with the same
reported size performs no reallocation. -/
theorem GetInterpolatedFrameAtTime_amortized (st : InterpState)
    (reported : Nat) (hinv : interpInv st) :
    (interpMallocCount (GetInterpolatedFrameAtTime st reported).2 =
      if 0 < reported ∧ reported ≠ st.recorded then 1 else 0) ∧
    (0 < reported →
      (GetInterpolatedFrameAtTime st reported).1.cap = some reported) ∧
    interpInv (GetInterpolatedFrameAtTime st reported).1 ∧
    interpMallocCount
      (GetInterpolatedFrameAtTime
        (GetInterpolatedFrameAtTime st reported).1 reported).2 = 0 := by
  obtain ⟨cap, recorded⟩ := st
  by_cases hp : 0 < reported
  · by_cases hne : reported = recorded
    · subst hne
      have hcap : cap = some reported := by
        rcases hinv with ⟨h1, h2⟩ | h1
        · simp at h2
          omega
        · simpa using h1
      subst hcap
      simp [GetInterpolatedFrameAtTime, interpMallocCount, interpInv, hp]
    · simp [GetInterpolatedFrameAtTime, interpMallocCount, interpInv, hp, hne]
  · simpa [GetInterpolatedFrameAtTime, interpMallocCount, hp] using hinv

/-- Claim C6, witness: the amortized-allocation theorem applied to the
constructor state (no buffer, recorded size 0) with a reported size of 40:
one allocation of capacity 40, and a repeated call allocates nothing. -/
theorem GetInterpolatedFrameAtTime_amortized_witness :
    interpMallocCount (GetInterpolatedFrameAtTime ⟨none, 0⟩ 40).2 = 1 ∧
    (GetInterpolatedFrameAtTime ⟨none, 0⟩ 40).1.cap = some 40 ∧
    interpMallocCount
      (GetInterpolatedFrameAtTime
        (GetInterpolatedFrameAtTime ⟨none, 0⟩ 40).1 40).2 = 0 :=
  ⟨by
      have h := (GetInterpolatedFrameAtTime_amortized ⟨none, 0⟩ 40
        (Or.inl ⟨rfl, rfl⟩)).1
      simpa using h,
    (GetInterpolatedFrameAtTime_amortized ⟨none, 0⟩ 40
        (Or.inl ⟨rfl, rfl⟩)).2.1 (by decide),
    (GetInterpolatedFrameAtTime_amortized ⟨none, 0⟩ 40
        (Or.inl ⟨rfl, rfl⟩)).2.2.2⟩

/-- The event kinds dispatched by the message pump's switch (lines 609-651),
with a constructor for unknown message types (discarded by the default
branch). -/
inductive EventType
  | connection
  | connectionLost
  | device
  | deviceLost
  | deviceFailure
  | tracking
  | image
  | log
  | policy
  | trackingMode
  | configChange
  | configResponse
  | unknown
deriving DecidableEq, Repr

/-- One iteration's worth of external input to the pump loop: whether another
thread cleared bIsRunning while LeapPollConnection was blocking, the poll's
result code, and the polled message's type (meaningful when the poll
succeeded). -/
structure PollStep where
  clearRunningDuringPoll : Bool
  result : ELeapRS
  msg : EventType
deriving DecidableEq, Repr

/-- Observable actions of one run of the pump loop. -/
inductive LoopAct
  | dispatch (e : EventType)
  | sleepRetry
  | stopped
deriving DecidableEq, Repr

/-- The effect of a dispatched event on the bIsConnected flag: the connection
handler sets it, the connection-lost handler clears it, no other handler
touches it. -/
def updateConnected (connected : Bool) (e : EventType) : Bool :=
  match e with
  | EventType.connection => true
  | EventType.connectionLost => false
  | _ => connected

/-- Embedding of FLeapWrapper::ServiceMessageLoop (lines 575-655) over a
finite list of poll iterations.  Each iteration checks bIsRunning at the loop
top, polls, re-checks bIsRunning immediately after the poll returns (emitting
a final stopped action and dispatching nothing if it was cleared), then on a
non-success result sleeps 0.1s and retries when disconnected or just retries
when connected, and on success dispatches the message by type.  An exhausted
input list means the environment produced no further iterations to observe;
the real loop would keep polling. -/
def ServiceMessageLoop (running connected : Bool) :
    List PollStep → List LoopAct
  | [] => []
  | step :: rest =>
    if running = false then
      []
    else
      if step.clearRunningDuringPoll then
        [LoopAct.stopped]
      else if step.result ≠ ELeapRS.success then
        if connected = false then
          LoopAct.sleepRetry :: ServiceMessageLoop true connected rest
        else
          ServiceMessageLoop true connected rest
      else
        LoopAct.dispatch step.msg ::
          ServiceMessageLoop true (updateConnected connected step.msg) rest

/-- Claim C8: the pump re-checks the running flag immediately after every
poll return.  First conjunct: for any prefix of iterations during which the
flag is never cleared, followed by an iteration during which it is cleared,
the loop's trace is exactly the trace of the prefix followed by one stopped
action — the just-polled message is not dispatched and nothing after it is
processed, so shutdown is observed within the one poll that overlapped the
clear.  Second conjunct: while the flag is never cleared the loop never
stops, whatever the individual messages and poll failures are — the pump
terminates only on explicit stop. -/
theorem ServiceMessageLoop_shutdown (connected : Bool)
    (steps1 : List PollStep) (s : PollStep) (steps2 : List PollStep)
    (h1 : ∀ t ∈ steps1, t.clearRunningDuringPoll = false)
    (h2 : s.clearRunningDuringPoll = true) :
    (ServiceMessageLoop true connected (steps1 ++ s :: steps2) =
      ServiceMessageLoop true connected steps1 ++ [LoopAct.stopped]) ∧
    (∀ steps : List PollStep, ∀ c : Bool,
      (∀ t ∈ steps, t.clearRunningDuringPoll = false) →
        LoopAct.stopped ∉ ServiceMessageLoop true c steps) := by
  constructor
  · induction steps1 generalizing connected with
    | nil => simp [ServiceMessageLoop, h2]
    | cons a rest ih =>
      have ha : a.clearRunningDuringPoll = false := h1 a (by simp)
      have hrest : ∀ t ∈ rest, t.clearRunningDuringPoll = false :=
        fun t ht => h1 t (by simp [ht])
      by_cases hr : a.result = ELeapRS.success
      · simp [ServiceMessageLoop, ha, hr, ih _ hrest]
      · cases hc : connected <;>
          simp [ServiceMessageLoop, ha, hr, ih _ hrest]
  · intro steps
    induction steps with
    | nil => intro c h; simp [ServiceMessageLoop]
    | cons a rest ih =>
      intro c h
      have ha : a.clearRunningDuringPoll = false := h a (by simp)
      have hrest : ∀ t ∈ rest, t.clearRunningDuringPoll = false :=
        fun t ht => h t (by simp [ht])
      by_cases hr : a.result = ELeapRS.success
      · simp [ServiceMessageLoop, ha, hr]
        exact ih _ hrest
      · cases hc : c <;> simp [ServiceMessageLoop, ha, hr] <;>
          exact ih _ hrest

/-- Claim C8, witness: the shutdown theorem applied to a concrete run — one
successfully dispatched tracking message, then a poll during which the
running flag is cleared: the trace is the tracking dispatch followed by a
single stop, and the cleared-during-poll image message is never dispatched. -/
theorem ServiceMessageLoop_shutdown_witness :
    ServiceMessageLoop true true
        ([⟨false, ELeapRS.success, EventType.tracking⟩] ++
          ⟨true, ELeapRS.success, EventType.image⟩ ::
            [⟨false, ELeapRS.success, EventType.log⟩]) =
      ServiceMessageLoop true true
          [⟨false, ELeapRS.success, EventType.tracking⟩] ++
        [LoopAct.stopped] :=
  (ServiceMessageLoop_shutdown true
      [⟨false, ELeapRS.success, EventType.tracking⟩]
      ⟨true, ELeapRS.success, EventType.image⟩
      [⟨false, ELeapRS.success, EventType.log⟩]
      (by decide) rfl).1

/-- Modelled from the spec: FLeapWrapper::GetCallbackDelegate is declared in
the class header, which is not among the sources here; per the spec's
validity-guard description it returns the session's callback reference,
which may be null.  Here it is the truth value of that reference being
non-null. -/
def GetCallbackDelegate (s : WrapperState) : Bool :=
  s.callbackSet

/-- Embedding of IsLeapContextValid (lines 36-40): load the process-wide
atomic context slot (none when it holds nullptr) and return whether the
queried context pointer equals the cached one and that context's
GetCallbackDelegate is non-null.  Context pointers are modelled as naturals. -/
def IsLeapContextValid (leapContextAtomic : Option Nat) (inContext : Nat)
    (s : WrapperState) : Bool :=
  decide (some inContext = leapContextAtomic) && GetCallbackDelegate s

/-- The validity predicate as the spec words it: the stored pointer equals
the session and the session's callback reference is currently non-null. -/
def specContextValid (leapContextAtomic : Option Nat) (inContext : Nat)
    (s : WrapperState) : Prop :=
  leapContextAtomic = some inContext ∧ s.callbackSet = true

/-- Claim C9: the context validity check returns true if and only if the
globally stored context pointer equals the queried session and that session's
callback reference is non-null. -/
theorem IsLeapContextValid_iff (stored : Option Nat) (ctx : Nat)
    (s : WrapperState) :
    IsLeapContextValid stored ctx s = true ↔ specContextValid stored ctx s := by
  constructor
  · intro h
    unfold IsLeapContextValid GetCallbackDelegate at h
    simp only [Bool.and_eq_true, decide_eq_true_eq] at h
    exact ⟨h.1.symm, h.2⟩
  · intro h
    obtain ⟨h1, h2⟩ := h
    unfold IsLeapContextValid GetCallbackDelegate
    simp [h1, h2]

/-- Claim C9, witness: the equivalence applied concretely — a registered
session with its callback set is judged valid. -/
theorem IsLeapContextValid_iff_witness :
    IsLeapContextValid (some 7) 7 fullState = true :=
  (IsLeapContextValid_iff (some 7) 7 fullState).mpr ⟨rfl, rfl⟩

/-- The image-stream description struct LEAP_IMAGE_FRAME_DESCRIPTION as used
by EnableImageStream: a buffer length and the pixel buffer pointer (the
buffer is modelled by its capacity).  A freshly new-ed struct's buffer_len is
indeterminate (never initialised by the code). -/
structure ImageDesc where
  buffer_len : Nat
  pBuffer : Option Nat
deriving DecidableEq, Repr

/-- Observable actions of EnableImageStream. -/
inductive ImgAct
  | allocDesc
  | freeImgBuffer
  | mallocImgBuffer (len : Nat)
deriving DecidableEq, Repr

/-- Embedding of FLeapWrapper::EnableImageStream (lines 279-300): allocate
the ImageDescription struct with a null pBuffer on first call (freshLen
models its indeterminate, never-written buffer_len field); then snapshot
OldLength from buffer_len and reallocate the pixel buffer only when
buffer_len differs from that just-taken snapshot of itself.  The bEnable
argument is never consulted by the function body. -/
def EnableImageStream (desc : Option ImageDesc) (bEnable : Bool)
    (freshLen : Nat) : Option ImageDesc × List ImgAct :=
  let r0 :=
    match desc with
    | none => ((⟨freshLen, none⟩ : ImageDesc), [ImgAct.allocDesc])
    | some d => (d, ([] : List ImgAct))
  let oldLength := r0.1.buffer_len
  if r0.1.buffer_len ≠ oldLength then
    (some ⟨r0.1.buffer_len, some r0.1.buffer_len⟩,
      r0.2 ++ (if r0.1.pBuffer.isSome then [ImgAct.freeImgBuffer] else []) ++
        [ImgAct.mallocImgBuffer r0.1.buffer_len])
  else
    (some r0.1, r0.2)

/-- Claim C10: EnableImageStream never allocates or frees the image pixel
buffer, because its reallocation guard compares buffer_len against a copy of
itself taken immediately before, which is always equal: the first call
allocates the ImageDescription struct with a null pBuffer, and every later
call returns the description unchanged with no buffer action at all. -/
theorem EnableImageStream_never_allocates (desc : Option ImageDesc)
    (bEnable : Bool) (freshLen : Nat) :
    ((EnableImageStream desc bEnable freshLen).2.count ImgAct.freeImgBuffer
        = 0) ∧
    ((EnableImageStream desc bEnable freshLen).2.filter (fun a =>
        match a with
        | ImgAct.mallocImgBuffer _ => true
        | _ => false) = []) ∧
    (desc = none →
      (EnableImageStream desc bEnable freshLen).1 =
        some ⟨freshLen, none⟩) ∧
    (∀ d, desc = some d →
      (EnableImageStream desc bEnable freshLen).1 = some d ∧
      (EnableImageStream desc bEnable freshLen).2 = []) := by
  cases desc <;> simp [EnableImageStream]

/-- Claim C10, witness: a first call allocates the description with a null
buffer pointer; a second call on a description with a nonzero buffer_len and
a null pBuffer changes nothing. -/
theorem EnableImageStream_never_allocates_witness :
    (EnableImageStream none true 77).1 = some ⟨77, none⟩ ∧
    (EnableImageStream (some ⟨77, none⟩) true 0).1 = some ⟨77, none⟩ :=
  ⟨(EnableImageStream_never_allocates none true 77).2.2.1 rfl,
    ((EnableImageStream_never_allocates (some ⟨77, none⟩) true 0).2.2.2
        ⟨77, none⟩ rfl).1⟩
